import Mathlib

/-!
Verification of the sharp-cli pipeline-construction core (src/lib/cli.js).

The development shallowly embeds the resolved-arguments record, the
Operation Queue, and the global-option post-processing block of the
overridden cli.parse callback, and proves the ordering, triggering and
error-handling properties of that code.
-/

namespace SharpCli

/-- Resolved Arguments: one field per global option of the schema in
src/lib/cli.js. A JS value that may be `undefined` is an `Option`;
boolean flags are `Option Bool`, numeric options `Option Int`, string
options `Option String`, and the array-typed input option
`Option (List String)`. -/
structure Args where
  adaptiveFiltering : Option Bool
  chromaSubsampling : Option String
  compressionLevel : Option Int
  format : Option String
  input : Option (List String)
  limitInputPixels : Option Int
  optimise : Option Bool
  optimiseScans : Option Bool
  output : Option String
  overshootDeringing : Option Bool
  progressive : Option Bool
  quality : Option Int
  sequentialRead : Option Bool
  trellisQuantisation : Option Bool
  withMetadata : Option Bool
deriving DecidableEq, Repr

/-- JS truthiness of a possibly-undefined boolean. -/
def truthyBool : Option Bool → Bool
  | some b => b
  | none => false

/-- JS truthiness of a possibly-undefined number: 0 is falsy. -/
def truthyNum : Option Int → Bool
  | some n => n != 0
  | none => false

/-- JS truthiness of a possibly-undefined string: the empty string is falsy. -/
def truthyStr : Option String → Bool
  | some s => s != ""
  | none => false

/-- JS short-circuit disjunction on possibly-undefined booleans:
`a || b` yields `a` when `a` is truthy and `b` otherwise. -/
def jsOrBool (a b : Option Bool) : Option Bool :=
  if truthyBool a then a else b

/-- Parameters passed to sharp.jpeg by the jpeg queue entry
(src/lib/cli.js lines 275 to 285). -/
structure JpegParams where
  chromaSubsampling : Option String
  force : Bool
  optimiseScans : Option Bool
  overshootDeringing : Option Bool
  progressive : Option Bool
  quality : Option Int
  trellisQuantisation : Option Bool
deriving DecidableEq, Repr

/-- Parameters passed to sharp.png by the png queue entry
(src/lib/cli.js lines 295 to 302). -/
structure PngParams where
  adaptiveFiltering : Option Bool
  compressionLevel : Option Int
  force : Bool
  progressive : Option Bool
deriving DecidableEq, Repr

/-- Parameters passed to sharp.tiff (src/lib/cli.js line 313). -/
structure TiffParams where
  force : Bool
  quality : Option Int
deriving DecidableEq, Repr

/-- Parameters passed to sharp.webp (src/lib/cli.js line 314). -/
structure WebpParams where
  force : Bool
  quality : Option Int
deriving DecidableEq, Repr

/-- The operation of a queue entry: which engine call the closure makes
and with which bound parameters. -/
inductive Op where
  | toFormat (fmt : Option String)
  | jpeg (p : JpegParams)
  | limitInputPixels (v : Option Int)
  | png (p : PngParams)
  | sequentialRead
  | tiff (p : TiffParams)
  | webp (p : WebpParams)
  | withMetadata
deriving DecidableEq, Repr

/-- A Queue Entry is a label paired with its operation. -/
abbrev QueueEntry := String × Op

/-- The Operation Queue, front of the list = front of the queue. -/
abbrev Queue := List QueueEntry

/-- Modelled from the spec: the Operation Queue module (lib/queue.js) is
not under src/. Spec section 2 describes it as an ordered list of
(name, operation) pairs supporting append-to-end and insert-at-front;
unshift is the insert-at-front operation used by cli.js. -/
def Queue.unshift (e : QueueEntry) (q : Queue) : Queue := e :: q

/-- The jpeg parameters built from the resolved arguments
(src/lib/cli.js lines 276 to 284); optimise acts through the JS
short-circuit disjunction on three of the fields. -/
def jpegParams (args : Args) : JpegParams where
  chromaSubsampling := args.chromaSubsampling
  force := false
  optimiseScans := jsOrBool args.optimise args.optimiseScans
  overshootDeringing := jsOrBool args.optimise args.overshootDeringing
  progressive := args.progressive
  quality := args.quality
  trellisQuantisation := jsOrBool args.optimise args.trellisQuantisation

/-- The png parameters built from the resolved arguments
(src/lib/cli.js lines 296 to 301). -/
def pngParams (args : Args) : PngParams where
  adaptiveFiltering := args.adaptiveFiltering
  compressionLevel := args.compressionLevel
  force := false
  progressive := args.progressive

/-- The tiff parameters (src/lib/cli.js line 313). -/
def tiffParams (args : Args) : TiffParams where
  force := false
  quality := args.quality

/-- The webp parameters (src/lib/cli.js line 314). -/
def webpParams (args : Args) : WebpParams where
  force := false
  quality := args.quality

/-- The trigger condition of the jpeg entry (src/lib/cli.js lines 266
to 274): truthiness of any of the seven listed fields. -/
def jpegTriggered (args : Args) : Bool :=
  truthyStr args.chromaSubsampling ||
  truthyBool args.optimise ||
  truthyBool args.optimiseScans ||
  truthyBool args.overshootDeringing ||
  truthyBool args.progressive ||
  truthyNum args.quality ||
  truthyBool args.trellisQuantisation

/-- The trigger condition of the png entry (src/lib/cli.js line 294). -/
def pngTriggered (args : Args) : Bool :=
  truthyBool args.adaptiveFiltering ||
  truthyNum args.compressionLevel ||
  truthyBool args.progressive

/-- The global-option block of the overridden cli.parse callback
(src/lib/cli.js lines 258 to 320): a sequence of conditional
queue.unshift calls, transliterated statement by statement. -/
def applyGlobalOptions (args : Args) (q : Queue) : Queue :=
  let q1 := if truthyStr args.format then
    Queue.unshift ("format", Op.toFormat args.format) q else q
  let q2 := if jpegTriggered args then
    Queue.unshift ("jpeg", Op.jpeg (jpegParams args)) q1 else q1
  let q3 := if args.limitInputPixels.isSome then
    Queue.unshift ("limitInputPixels", Op.limitInputPixels args.limitInputPixels) q2 else q2
  let q4 := if pngTriggered args then
    Queue.unshift ("png", Op.png (pngParams args)) q3 else q3
  let q5 := if truthyBool args.sequentialRead then
    Queue.unshift ("sequentialRead", Op.sequentialRead) q4 else q4
  let q6 := if truthyNum args.quality then
    Queue.unshift ("webp", Op.webp (webpParams args))
      (Queue.unshift ("tiff", Op.tiff (tiffParams args)) q5) else q5
  let q7 := if truthyBool args.withMetadata then
    Queue.unshift ("withMetadata", Op.withMetadata) q6 else q6
  q7

/-- The error message produced for an explicitly supplied but empty
input list (src/lib/cli.js line 255). -/
def emptyInputErrMsg : String := "Not enough arguments following: i, input"

/-- The callback installed by the overridden cli.parse
(src/lib/cli.js lines 248 to 325): when the parser produced no
arguments the state is passed through; otherwise the empty-input check
may replace the error and the global options are applied to the queue. -/
def parseCallback (err : Option String) (args : Option Args) (q : Queue) :
    Option String × Queue :=
  match args with
  | none => (err, q)
  | some a =>
      let err1 := if a.input.isSome && (a.input.getD []).isEmpty then
        some emptyInputErrMsg else err
      (err1, applyGlobalOptions a q)

/-- The global-option prefix produced from the resolved arguments alone. -/
def globalOps (args : Args) : Queue := applyGlobalOptions args []

/-- The labels of a queue, front to back. -/
def labels (q : Queue) : List String := q.map Prod.fst

/-- Boolean test that a queue holds an entry with the given label. -/
def hasLabel (q : Queue) (s : String) : Bool := q.any (fun e => e.1 == s)

/-- Resolved arguments with every option left unsupplied. -/
def emptyArgs : Args where
  adaptiveFiltering := none
  chromaSubsampling := none
  compressionLevel := none
  format := none
  input := none
  limitInputPixels := none
  optimise := none
  optimiseScans := none
  output := none
  overshootDeringing := none
  progressive := none
  quality := none
  sequentialRead := none
  trellisQuantisation := none
  withMetadata := none

/-- The implies declarations of the option schema (src/lib/cli.js
line 74: input implies output, line 170: optimiseScans implies
progressive). -/
def impliesPairs : List (String × String) :=
  [("input", "output"), ("optimiseScans", "progressive")]

/-- Modelled from the spec: the implies-constraint check of the
Argument Resolver is performed by the external CLI-parsing library from
the schema declarations, so its code is not under src/. Spec section
4.2: if option A declares implies B, supplying A without B is a hard
error. -/
def impliesViolation (supplied : List String) : Bool :=
  impliesPairs.any (fun p => supplied.contains p.1 && !(supplied.contains p.2))

/-- Modelled from the spec: resolution produces Resolved Arguments only
when no implies constraint is violated (spec section 4.2). -/
def resolveArgs (supplied : List String) (parsed : Args) : Option Args :=
  if impliesViolation supplied then none else some parsed

/-- The contribution of the format check to the queue. -/
def segFormat (a : Args) : Queue :=
  if truthyStr a.format then [("format", Op.toFormat a.format)] else []

/-- The contribution of the jpeg check to the queue. -/
def segJpeg (a : Args) : Queue :=
  if jpegTriggered a then [("jpeg", Op.jpeg (jpegParams a))] else []

/-- The contribution of the limitInputPixels check to the queue. -/
def segLimit (a : Args) : Queue :=
  if a.limitInputPixels.isSome then
    [("limitInputPixels", Op.limitInputPixels a.limitInputPixels)] else []

/-- The contribution of the png check to the queue. -/
def segPng (a : Args) : Queue :=
  if pngTriggered a then [("png", Op.png (pngParams a))] else []

/-- The contribution of the sequentialRead check to the queue. -/
def segSeq (a : Args) : Queue :=
  if truthyBool a.sequentialRead then [("sequentialRead", Op.sequentialRead)] else []

/-- The contribution of the quality check to the queue: webp in front of
tiff, because tiff is unshifted first and webp second. -/
def segQuality (a : Args) : Queue :=
  if truthyNum a.quality then
    [("webp", Op.webp (webpParams a)), ("tiff", Op.tiff (tiffParams a))] else []

/-- The contribution of the withMetadata check to the queue. -/
def segMeta (a : Args) : Queue :=
  if truthyBool a.withMetadata then [("withMetadata", Op.withMetadata)] else []

/-- The sequence of conditional unshifts equals prepending the seven
segments, head to tail: withMetadata, webp and tiff, sequentialRead,
png, limitInputPixels, jpeg, format. -/
theorem applyGlobalOptions_eq_segments (a : Args) (q : Queue) :
    applyGlobalOptions a q =
      segMeta a ++ segQuality a ++ segSeq a ++ segPng a ++ segLimit a ++
        segJpeg a ++ segFormat a ++ q := by
  by_cases h1 : truthyStr a.format = true <;>
  by_cases h2 : jpegTriggered a = true <;>
  by_cases h3 : a.limitInputPixels.isSome = true <;>
  by_cases h4 : pngTriggered a = true <;>
  by_cases h5 : truthyBool a.sequentialRead = true <;>
  by_cases h6 : truthyNum a.quality = true <;>
  by_cases h7 : truthyBool a.withMetadata = true <;>
  simp [applyGlobalOptions, Queue.unshift, segMeta, segQuality, segSeq, segPng,
    segLimit, segJpeg, segFormat, h1, h2, h3, h4, h5, h6, h7]

/-- The global prefix decomposes into the seven segments. -/
theorem globalOps_eq_segments (a : Args) :
    globalOps a =
      segMeta a ++ segQuality a ++ segSeq a ++ segPng a ++ segLimit a ++
        segJpeg a ++ segFormat a := by
  have h := applyGlobalOptions_eq_segments a []
  simpa [globalOps] using h

/-- Boolean subsequence test: the first list occurs inside the second
in order, possibly with gaps. -/
def isSubseqOf : List String → List String → Bool
  | [], _ => true
  | _ :: _, [] => false
  | x :: xs, y :: ys => if x = y then isSubseqOf xs ys else isSubseqOf (x :: xs) ys

theorem hasLabel_append (p q : Queue) (s : String) :
    hasLabel (p ++ q) s = (hasLabel p s || hasLabel q s) := by
  simp [hasLabel]

theorem hasLabel_segFormat (a : Args) (s : String) :
    hasLabel (segFormat a) s = (truthyStr a.format && ("format" == s)) := by
  unfold segFormat
  split <;> simp_all [hasLabel]

theorem hasLabel_segJpeg (a : Args) (s : String) :
    hasLabel (segJpeg a) s = (jpegTriggered a && ("jpeg" == s)) := by
  unfold segJpeg
  split <;> simp_all [hasLabel]

theorem hasLabel_segLimit (a : Args) (s : String) :
    hasLabel (segLimit a) s = (a.limitInputPixels.isSome && ("limitInputPixels" == s)) := by
  unfold segLimit
  split <;> simp_all [hasLabel]

theorem hasLabel_segPng (a : Args) (s : String) :
    hasLabel (segPng a) s = (pngTriggered a && ("png" == s)) := by
  unfold segPng
  split <;> simp_all [hasLabel]

theorem hasLabel_segSeq (a : Args) (s : String) :
    hasLabel (segSeq a) s = (truthyBool a.sequentialRead && ("sequentialRead" == s)) := by
  unfold segSeq
  split <;> simp_all [hasLabel]

theorem hasLabel_segQuality (a : Args) (s : String) :
    hasLabel (segQuality a) s = (truthyNum a.quality && (("webp" == s) || ("tiff" == s))) := by
  unfold segQuality
  split <;> simp_all [hasLabel]

theorem hasLabel_segMeta (a : Args) (s : String) :
    hasLabel (segMeta a) s = (truthyBool a.withMetadata && ("withMetadata" == s)) := by
  unfold segMeta
  split <;> simp_all [hasLabel]

theorem hasLabel_globalOps (a : Args) (s : String) :
    hasLabel (globalOps a) s =
      ((truthyBool a.withMetadata && ("withMetadata" == s)) ||
       (truthyNum a.quality && (("webp" == s) || ("tiff" == s))) ||
       (truthyBool a.sequentialRead && ("sequentialRead" == s)) ||
       (pngTriggered a && ("png" == s)) ||
       (a.limitInputPixels.isSome && ("limitInputPixels" == s)) ||
       (jpegTriggered a && ("jpeg" == s)) ||
       (truthyStr a.format && ("format" == s))) := by
  rw [globalOps_eq_segments]
  simp only [hasLabel_append, hasLabel_segFormat, hasLabel_segJpeg, hasLabel_segLimit,
    hasLabel_segPng, hasLabel_segSeq, hasLabel_segQuality, hasLabel_segMeta, Bool.or_assoc]

/-- The head-to-tail order of the global prefix that spec section 4.4
claims, items 1 through 8. -/
def claimedPrefixOrder : List String :=
  ["format", "jpeg", "limitInputPixels", "png", "sequentialRead", "tiff", "webp", "withMetadata"]

/-- The head-to-tail order of the global prefix that the code actually
produces: the reverse of the claimed list, with webp in front of tiff. -/
def actualPrefixOrder : List String :=
  ["withMetadata", "webp", "tiff", "sequentialRead", "png", "limitInputPixels", "jpeg", "format"]

/-- Arguments of a successful resolution supplying format and
withMetadata, used to exhibit the actual prefix order. -/
def argsFmtMeta : Args :=
  { emptyArgs with
      format := some ("png"), withMetadata := some true,
      input := some ["in.jpg"], output := some (".") }

/-- Arguments of a successful resolution supplying only quality 90. -/
def argsQ90 : Args :=
  { emptyArgs with
      quality := some 90, input := some ["in.jpg"], output := some (".") }

/-- Arguments supplying quality 90 together with progressive. -/
def argsQ90P : Args := { argsQ90 with progressive := some true }

/-- Arguments with an explicitly supplied but empty input list together
with a quality value, exhibiting queue construction after the
empty-input error. -/
def argsEmptyInput : Args :=
  { emptyArgs with input := some [], output := some ("."), quality := some 90 }

theorem labels_append (p q : Queue) : labels (p ++ q) = labels p ++ labels q := by
  simp [labels]

theorem labels_segFormat (a : Args) :
    labels (segFormat a) = if truthyStr a.format then ["format"] else [] := by
  unfold segFormat labels
  split <;> rfl

theorem labels_segJpeg (a : Args) :
    labels (segJpeg a) = if jpegTriggered a then ["jpeg"] else [] := by
  unfold segJpeg labels
  split <;> rfl

theorem labels_segLimit (a : Args) :
    labels (segLimit a) = if a.limitInputPixels.isSome then ["limitInputPixels"] else [] := by
  unfold segLimit labels
  split <;> rfl

theorem labels_segPng (a : Args) :
    labels (segPng a) = if pngTriggered a then ["png"] else [] := by
  unfold segPng labels
  split <;> rfl

theorem labels_segSeq (a : Args) :
    labels (segSeq a) = if truthyBool a.sequentialRead then ["sequentialRead"] else [] := by
  unfold segSeq labels
  split <;> rfl

theorem labels_segQuality (a : Args) :
    labels (segQuality a) = if truthyNum a.quality then ["webp", "tiff"] else [] := by
  unfold segQuality labels
  split <;> rfl

theorem labels_segMeta (a : Args) :
    labels (segMeta a) = if truthyBool a.withMetadata then ["withMetadata"] else [] := by
  unfold segMeta labels
  split <;> rfl

/-- The labels of the global prefix as a function of the seven trigger
conditions. -/
theorem labels_globalOps (a : Args) :
    labels (globalOps a) =
      (if truthyBool a.withMetadata then ["withMetadata"] else []) ++
      (if truthyNum a.quality then ["webp", "tiff"] else []) ++
      (if truthyBool a.sequentialRead then ["sequentialRead"] else []) ++
      (if pngTriggered a then ["png"] else []) ++
      (if a.limitInputPixels.isSome then ["limitInputPixels"] else []) ++
      (if jpegTriggered a then ["jpeg"] else []) ++
      (if truthyStr a.format then ["format"] else []) := by
  rw [globalOps_eq_segments]
  simp only [labels_append, labels_segFormat, labels_segJpeg, labels_segLimit,
    labels_segPng, labels_segSeq, labels_segQuality, labels_segMeta, List.append_assoc]

theorem isSubseqOf_actual (b1 b2 b3 b4 b5 b6 b7 : Bool) :
    isSubseqOf
      ((if b7 then ["withMetadata"] else []) ++
       (if b6 then ["webp", "tiff"] else []) ++
       (if b5 then ["sequentialRead"] else []) ++
       (if b4 then ["png"] else []) ++
       (if b3 then ["limitInputPixels"] else []) ++
       (if b2 then ["jpeg"] else []) ++
       (if b1 then ["format"] else [])) actualPrefixOrder = true := by
  revert b1 b2 b3 b4 b5 b6 b7
  decide

/-- C1, counterexample: a successful resolution supplying format and
withMetadata yields the prefix withMetadata then format, which is not a
subsequence of the order claimed in spec section 4.4 items 1 to 8. -/
theorem claimedOrder_cex_C1 :
    (parseCallback none (some argsFmtMeta) []).1 = none ∧
    labels (parseCallback none (some argsFmtMeta) []).2 = ["withMetadata", "format"] ∧
    isSubseqOf (labels (parseCallback none (some argsFmtMeta) []).2)
      claimedPrefixOrder = false := by
  decide

/-- C1, amended: for every resolved arguments, the global-option prefix
appears head-to-tail in the REVERSE of the spec section 4.4 list:
metadata-preservation, WEBP quality, TIFF quality, sequential-read,
PNG parameters, input pixel-count limit, JPEG parameters, output-format
override, restricted to the triggered checks. -/
theorem globalPrefixOrder_C1 (a : Args) :
    isSubseqOf (labels (globalOps a)) actualPrefixOrder = true := by
  rw [labels_globalOps]
  exact isSubseqOf_actual (truthyStr a.format) (jpegTriggered a)
    (a.limitInputPixels.isSome) (pngTriggered a) (truthyBool a.sequentialRead)
    (truthyNum a.quality) (truthyBool a.withMetadata)

/-- C2, counterexample: quality 90 alone produces three queue entries,
not two, and in particular a jpeg entry, since quality is one of the
jpeg triggers in src/lib/cli.js line 272. -/
theorem qualityAlone_cex_C2 :
    (globalOps argsQ90).length = 3 ∧ hasLabel (globalOps argsQ90) ("jpeg") = true := by
  decide

/-- C2, amended: quality 90 alone produces exactly three entries, webp,
tiff and jpeg head-to-tail, and no png entry; quality 90 with
progressive additionally produces the png entry. -/
theorem qualityEntries_C2 :
    labels (globalOps argsQ90) = ["webp", "tiff", "jpeg"] ∧
    labels (globalOps argsQ90P) = ["webp", "tiff", "png", "jpeg"] := by
  decide

/-- C3, counterexample: an explicitly-supplied-but-empty input list
produces the hard error, yet the queue is still mutated: the global
prepends run because the parsed arguments are non-null. -/
theorem emptyInputMutatesQueue_cex_C3 :
    (parseCallback none (some argsEmptyInput) []).1 = some emptyInputErrMsg ∧
    (parseCallback none (some argsEmptyInput) []).2 ≠ [] := by
  decide

/-- C3, amended: when the resolver itself fails (unknown flag, wrong
arity, unmet implies constraint), no arguments are produced and the
callback leaves the queue unchanged and the error untouched; the
explicit-but-empty input error, by contrast, does not prevent queue
construction. -/
theorem parseErrorQueueUnchanged_C3 (err : Option String) (q : Queue) :
    parseCallback err none q = (err, q) := rfl

/-- C4, amended: whenever quality is supplied with a truthy non-zero
value, the global prefix holds both the webp and the tiff entry, with
webp strictly closer to the front. -/
theorem webpBeforeTiff_C4 (a : Args) (h : truthyNum a.quality = true) :
    ∃ l1 l2 l3, globalOps a =
      l1 ++ ("webp", Op.webp (webpParams a)) :: l2 ++
        ("tiff", Op.tiff (tiffParams a)) :: l3 := by
  refine ⟨segMeta a, [], segSeq a ++ segPng a ++ segLimit a ++ segJpeg a ++ segFormat a, ?_⟩
  rw [globalOps_eq_segments]
  simp [segQuality, h]

/-- C4 witness at quality 90. -/
theorem webpBeforeTiff_witness_C4 :
    truthyNum argsQ90.quality = true ∧
    ∃ l1 l2 l3, globalOps argsQ90 =
      l1 ++ ("webp", Op.webp (webpParams argsQ90)) :: l2 ++
        ("tiff", Op.tiff (tiffParams argsQ90)) :: l3 :=
  ⟨by decide, webpBeforeTiff_C4 argsQ90 (by decide)⟩

/-- Arguments supplying only the optimise shorthand. -/
def argsOpt : Args := { emptyArgs with optimise := some true }

/-- C5: when none of optimiseScans, overshootDeringing and
trellisQuantisation was individually set, supplying optimise builds a
jpeg entry whose engine parameters equal those built when the three
flags are supplied instead, and both variants trigger the entry. -/
theorem optimiseShorthand_C5 (a : Args) (h1 : a.optimise = some true)
    (h2 : a.optimiseScans = none) (h3 : a.overshootDeringing = none)
    (h4 : a.trellisQuantisation = none) :
    jpegTriggered a = true ∧
    jpegTriggered { a with
      optimise := none, optimiseScans := some true,
      overshootDeringing := some true, trellisQuantisation := some true } = true ∧
    jpegParams a = jpegParams { a with
      optimise := none, optimiseScans := some true,
      overshootDeringing := some true, trellisQuantisation := some true } := by
  refine ⟨?_, ?_, ?_⟩ <;>
    simp [jpegTriggered, jpegParams, jsOrBool, truthyBool, h1, h2, h3, h4]

/-- C5 witness: the optimise shorthand alone versus the three flags. -/
theorem optimiseShorthand_witness_C5 :
    (argsOpt.optimise = some true ∧ argsOpt.optimiseScans = none ∧
      argsOpt.overshootDeringing = none ∧ argsOpt.trellisQuantisation = none) ∧
    (jpegTriggered argsOpt = true ∧
     jpegTriggered { argsOpt with
       optimise := none, optimiseScans := some true,
       overshootDeringing := some true, trellisQuantisation := some true } = true ∧
     jpegParams argsOpt = jpegParams { argsOpt with
       optimise := none, optimiseScans := some true,
       overshootDeringing := some true, trellisQuantisation := some true }) :=
  ⟨⟨rfl, rfl, rfl, rfl⟩, optimiseShorthand_C5 argsOpt rfl rfl rfl rfl⟩

/-- C6: a limitInputPixels entry is in the global prefix exactly when
the resolved field is present, and an explicit zero does add it. -/
theorem limitPresence_C6 :
    (∀ a : Args,
      hasLabel (globalOps a) ("limitInputPixels") = a.limitInputPixels.isSome) ∧
    hasLabel (globalOps { emptyArgs with limitInputPixels := some 0 })
      ("limitInputPixels") = true := by
  constructor
  · intro a
    rw [hasLabel_globalOps]
    simp
  · decide

/-- C7: with no incoming parse error, the callback reports the hard
error exactly when input is present but empty, and an absent input
reports no such error. -/
theorem emptyInputError_C7 (a : Args) (q : Queue) :
    ((parseCallback none (some a) q).1.isSome = true ↔ a.input = some []) ∧
    (a.input = none → (parseCallback none (some a) q).1 = none) := by
  cases hi : a.input with
  | none => simp [parseCallback, hi]
  | some l => cases l <;> simp [parseCallback, hi]

/-- C7 witness: empty input list errors, absent input does not. -/
theorem emptyInputError_witness_C7 :
    (parseCallback none (some argsEmptyInput) []).1.isSome = true ∧
    (parseCallback none (some emptyArgs) []).1 = none :=
  ⟨(emptyInputError_C7 argsEmptyInput []).1.mpr rfl,
   (emptyInputError_C7 emptyArgs []).2 rfl⟩

/-- C8: for every declared implies pair, supplying the antecedent
without the consequent makes resolution produce no arguments. -/
theorem impliesHardError_C8 (A B : String) (supplied : List String) (parsed : Args)
    (hmem : (A, B) ∈ impliesPairs) (hA : supplied.contains A = true)
    (hB : supplied.contains B = false) :
    resolveArgs supplied parsed = none := by
  have hviol : impliesViolation supplied = true := by
    unfold impliesViolation
    rw [List.any_eq_true]
    refine ⟨(A, B), hmem, ?_⟩
    simp only [Bool.and_eq_true, Bool.not_eq_true']
    exact ⟨hA, hB⟩
  simp [resolveArgs, hviol]

/-- C8 witness: optimiseScans without progressive and input without
output are both rejected. -/
theorem impliesHardError_witness_C8 :
    ((("optimiseScans", "progressive") ∈ impliesPairs ∧
        List.contains ["optimiseScans"] ("optimiseScans") = true ∧
        List.contains ["optimiseScans"] ("progressive") = false) ∧
      resolveArgs ["optimiseScans"] emptyArgs = none) ∧
    ((("input", "output") ∈ impliesPairs ∧
        List.contains ["input"] ("input") = true ∧
        List.contains ["input"] ("output") = false) ∧
      resolveArgs ["input"] emptyArgs = none) :=
  ⟨⟨⟨by decide, by decide, by decide⟩,
      impliesHardError_C8 ("optimiseScans") ("progressive") ["optimiseScans"]
        emptyArgs (by decide) (by decide) (by decide)⟩,
   ⟨⟨by decide, by decide, by decide⟩,
      impliesHardError_C8 ("input") ("output") ["input"]
        emptyArgs (by decide) (by decide) (by decide)⟩⟩

/-- C9: the callback is a deterministic function of the resolved
arguments: two runs on equal resolved arguments from the same initial
queue build queues of equal length and equal entry order. -/
theorem constructionDeterministic_C9 (a b : Args) (err : Option String) (q : Queue)
    (h : a = b) :
    (parseCallback err (some a) q).2.length = (parseCallback err (some b) q).2.length ∧
    (parseCallback err (some a) q).2 = (parseCallback err (some b) q).2 := by
  subst h
  exact ⟨rfl, rfl⟩

/-- C9 witness at quality 90. -/
theorem constructionDeterministic_witness_C9 :
    (parseCallback none (some argsQ90) []).2.length =
      (parseCallback none (some argsQ90) []).2.length ∧
    (parseCallback none (some argsQ90) []).2 = (parseCallback none (some argsQ90) []).2 :=
  constructionDeterministic_C9 argsQ90 argsQ90 none [] rfl

/-- C10: an explicit quality of zero adds no tiff, webp or jpeg entry
when the other jpeg triggers are falsy, and an explicit
compressionLevel of zero adds no png entry when the other png triggers
are falsy: these gates test truthiness, not presence. -/
theorem zeroValueGates_C10 (a b : Args)
    (hq : a.quality = some 0)
    (h1 : truthyStr a.chromaSubsampling = false) (h2 : truthyBool a.optimise = false)
    (h3 : truthyBool a.optimiseScans = false)
    (h4 : truthyBool a.overshootDeringing = false)
    (h5 : truthyBool a.progressive = false)
    (h6 : truthyBool a.trellisQuantisation = false)
    (hc : b.compressionLevel = some 0)
    (h7 : truthyBool b.adaptiveFiltering = false)
    (h8 : truthyBool b.progressive = false) :
    hasLabel (globalOps a) ("tiff") = false ∧
    hasLabel (globalOps a) ("webp") = false ∧
    hasLabel (globalOps a) ("jpeg") = false ∧
    hasLabel (globalOps b) ("png") = false := by
  have hqt : truthyNum a.quality = false := by simp [truthyNum, hq]
  have hjt : jpegTriggered a = false := by
    simp [jpegTriggered, h1, h2, h3, h4, h5, h6, hqt]
  have hct : truthyNum b.compressionLevel = false := by simp [truthyNum, hc]
  have hpt : pngTriggered b = false := by
    simp [pngTriggered, h7, h8, hct]
  refine ⟨?_, ?_, ?_, ?_⟩ <;> rw [hasLabel_globalOps] <;> simp [hqt, hjt, hpt]

/-- Arguments supplying only an explicit quality of zero. -/
def argsQ0 : Args := { emptyArgs with quality := some 0 }

/-- Arguments supplying only an explicit compressionLevel of zero. -/
def argsC0 : Args := { emptyArgs with compressionLevel := some 0 }

/-- C4, counterexample: quality supplied with an explicit value of
zero adds neither the webp nor the tiff entry, because the gate at
src/lib/cli.js line 312 tests truthiness, not presence. -/
theorem suppliedZeroQuality_cex_C4 :
    argsQ0.quality.isSome = true ∧
    hasLabel (globalOps argsQ0) ("webp") = false ∧
    hasLabel (globalOps argsQ0) ("tiff") = false := by
  decide

/-- C10 witness at quality 0 and compressionLevel 0. -/
theorem zeroValueGates_witness_C10 :
    (argsQ0.quality = some 0 ∧ argsC0.compressionLevel = some 0) ∧
    (hasLabel (globalOps argsQ0) ("tiff") = false ∧
     hasLabel (globalOps argsQ0) ("webp") = false ∧
     hasLabel (globalOps argsQ0) ("jpeg") = false ∧
     hasLabel (globalOps argsC0) ("png") = false) :=
  ⟨⟨rfl, rfl⟩, zeroValueGates_C10 argsQ0 argsC0 rfl rfl rfl rfl rfl rfl rfl rfl rfl rfl⟩

end SharpCli
